import Mathlib

/-
Verification of the request-handling core of a minimal socket HTTP server
(`http_server.py`): response builders, request parser, path resolver, and
the dispatch logic of the per-connection handler.

Bytes/str values are modelled as Lean `String`s (the Python code only
concatenates, splits and joins them, so the byte/char distinction is
irrelevant to the verified properties).  Filesystem and subprocess effects
are modelled by an explicit oracle record `FS`.
-/

namespace HttpSrv

/-- Exceptions of the Python program that are relevant to the dispatch
path: `NotImplementedError` (raised by `parse_request` for non-GET
methods), `NameError` (raised by `response_path` for a missing resource),
`ValueError` (raised by tuple destructuring when the request line does not
have exactly three tokens), and `AttributeError` (raised by
`None.encode(...)` when `mimetypes.guess_type` finds no mapping). -/
inductive Err
  | notImplementedError
  | nameError
  | valueError
  | attributeError
deriving DecidableEq

/-- Model of Python's `str.split(sep)` for a one-character separator:
splits on every occurrence, keeping empty pieces. -/
def splitChar (sep : Char) : List Char → List (List Char)
  | [] => [[]]
  | c :: rest =>
    if c == sep then [] :: splitChar sep rest
    else
      match splitChar sep rest with
      | h :: t => (c :: h) :: t
      | [] => [[c]]

/-- Model of Python's `split("\r\n")`: splits on every occurrence of the
two-character separator, leftmost first, keeping empty pieces. -/
def splitCRLF : List Char → List (List Char)
  | [] => [[]]
  | [c] => [[c]]
  | a :: b :: rest =>
    if a == '\r' && b == '\n' then [] :: splitCRLF rest
    else
      match splitCRLF (b :: rest) with
      | h :: t => (a :: h) :: t
      | [] => [[a]]

/-- Model of `b"\r\n".join(parts)` / `"\r\n".join(parts)`. -/
def joinCRLF : List String → String
  | [] => ""
  | [s] => s
  | s :: rest => s ++ "\r\n" ++ joinCRLF rest

/-- Embeds `response_ok(body, mimetype)`: joins the status line, the
Content-Type header, a blank segment and the body with CRLF. -/
def response_ok (body mimetype : String) : String :=
  joinCRLF ["HTTP/1.1 200 OK", "Content-Type: " ++ mimetype, "", body]

/-- Embeds `response_method_not_allowed()`. -/
def response_method_not_allowed : String :=
  joinCRLF ["HTTP/1.1 405 Method Not Allowed", "", "You can\x27t do that on this server!"]

/-- Embeds `response_not_found()`. -/
def response_not_found : String :=
  joinCRLF ["HTTP/1.1 404 Not Found", "", "Could not find resource on this server."]

/-- Model of `request.split("\r\n")[0].split(" ")`: the space-split tokens
of the first line of the raw request (Python's `split` with an explicit
separator keeps empty pieces, as the splitters above do). -/
def firstLineTokens (request : String) : List String :=
  (splitChar ' ' ((splitCRLF request.data).headD [])).map String.mk

/-- Embeds `parse_request(request)`: destructures the first line into
exactly three tokens (a `ValueError` otherwise), raises
`NotImplementedError` unless the method is exactly `"GET"`, and returns
the path. -/
def parse_request (request : String) : Except Err String :=
  match firstLineTokens request with
  | [method, path, _version] =>
    if method ≠ "GET" then Except.error Err.notImplementedError else Except.ok path
  | _ => Except.error Err.valueError

/-- Model of Python's `path[1:]`: the string minus its first character. -/
def pyDropFirst (path : String) : String :=
  String.mk (path.data.drop 1)

/-- Model of `posixpath.join(a, b)` for two components: `b` wins when it
is absolute; otherwise the parts are glued with a single `/` unless `a`
is empty or already ends with one. -/
def pyJoin (a b : String) : String :=
  if ['/'].isPrefixOf b.data then b
  else if a.data.isEmpty || ['/'].isSuffixOf a.data then a ++ b
  else a ++ "/" ++ b

/-- Embeds `location = os.path.join(home_dir, path[1:])`: the candidate
filesystem location, built from the document root and the request path
with its first character removed unconditionally. -/
def location (home_dir path : String) : String :=
  pyJoin home_dir (pyDropFirst path)

/-- Modelled from the Python standard library `mimetypes` table: a
representative fragment of `types_map` keyed by lowercased extension. -/
def types_map : List (String × String) :=
  [(".html", "text/html"), (".htm", "text/html"), (".txt", "text/plain"),
   (".png", "image/png"), (".jpg", "image/jpeg"), (".jpeg", "image/jpeg"),
   (".gif", "image/gif"), (".css", "text/css"), (".js", "text/javascript"),
   (".json", "application/json"), (".pdf", "application/pdf"),
   (".csv", "text/csv"), (".xml", "text/xml"), (".zip", "application/zip"),
   (".py", "text/x-python")]

/-- Modelled from the Python standard library `posixpath.splitext`: the
extension of the final path component, where the leading dots of a
component never start an extension (so `".cshrc"` and `"..b"` have none). -/
def fileExt (path : String) : String :=
  let base := (splitChar '/' path.data).getLastD []
  let stripped := base.dropWhile (fun c => c == '.')
  if stripped.contains '.' then
    String.mk ('.' :: (stripped.reverse.takeWhile (fun c => !(c == '.'))).reverse)
  else ""

/-- Modelled from the Python standard library `mimetypes.guess_type`:
looks the (lowercased) extension up in the type table; `none` models the
`None` returned for an unknown extension. -/
def guess_type (path : String) : Option String :=
  List.lookup (String.mk ((fileExt path).data.map Char.toLower)) types_map

/-- Oracle for the external effects used by `response_path`.
`home_dir` is the value of `os.path.abspath("webroot")`.
`pyStdout loc` is the captured stdout of
`subprocess.run(["python", loc], capture_output=True)`; that call raises
`FileNotFoundError` only when the interpreter command itself is missing
(not modelled) — when the *script* file is missing the interpreter exits
non-zero with empty stdout and `run` still returns normally.
`isDir` models `os.path.isdir`; `listDir` models `os.listdir` on an
existing directory; `readFile loc` models `open(loc, "rb").read()`, with
`none` standing for `FileNotFoundError`. -/
structure FS where
  home_dir : String
  pyStdout : String → String
  isDir : String → Bool
  listDir : String → List String
  readFile : String → Option String

/-- Embeds `response_path(path)`: script branch, directory branch, file
branch; `FileNotFoundError` from the file read becomes `NameError`; a
missing MIME mapping makes `None.encode("utf-8")` raise
`AttributeError`, which the `except FileNotFoundError` clause does not
catch. -/
def response_path (fs : FS) (path : String) : Except Err (String × String) :=
  let loc := location fs.home_dir path
  if (".py".data).isSuffixOf path.data then
    Except.ok (fs.pyStdout loc, "text/html")
  else if fs.isDir loc then
    Except.ok (joinCRLF (fs.listDir loc), "text/plain")
  else
    match fs.readFile loc with
    | none => Except.error Err.nameError
    | some content =>
      match guess_type path with
      | none => Except.error Err.attributeError
      | some file_type => Except.ok (content, file_type)

/-- Embeds the dispatch block of `server` (the inner try/except around
`parse_request` / `response_path` / `response_ok`):
`NotImplementedError` becomes the 405 response, `NameError` the 404
response, success the 200 response; any other exception propagates out of
the dispatch path (no response is built). -/
def handle (fs : FS) (request : String) : Except Err String :=
  match (parse_request request).bind
      (fun path => (response_path fs path).map (fun cm => response_ok cm.1 cm.2)) with
  | Except.ok r => Except.ok r
  | Except.error Err.notImplementedError => Except.ok response_method_not_allowed
  | Except.error Err.nameError => Except.ok response_not_found
  | Except.error e => Except.error e

/-! Character-list utilities used to state the claims about the wire
format of the responses. -/

/-- The CRLF pair as characters. -/
def CRLF2 : List Char := ['\r', '\n']

/-- The header/body separator `\r\n\r\n` as characters. -/
def CRLF4 : List Char := ['\r', '\n', '\r', '\n']

/-- Decides whether a character list contains the substring `\r\n`. -/
def hasCRLF : List Char → Bool
  | a :: b :: rest => (a == '\r' && b == '\n') || hasCRLF (b :: rest)
  | _ => false

/-- Splits a character list at the first occurrence of `sep`, returning
the part before and the part after it (`none` when `sep` never occurs);
this is Python's `split(sep, 1)` restricted to the occurring case. -/
def splitFirst (sep : List Char) : List Char → Option (List Char × List Char)
  | [] => none
  | c :: rest =>
    if sep.isPrefixOf (c :: rest) then some ([], (c :: rest).drop sep.length)
    else (splitFirst sep rest).map (fun q => (c :: q.1, q.2))

/-- Model of `"\r\n".join` on character lists, mirroring `joinCRLF`. -/
def joinCRLFL : List (List Char) → List Char
  | [] => []
  | [l] => l
  | l :: rest => l ++ '\r' :: '\n' :: joinCRLFL rest

/-- A chunk is safe when no suffix of it can start an occurrence of
`\r\n\r\n`, whatever follows the chunk: every nonempty suffix disagrees
with `\r\n\r\n` within its own characters. -/
def chunkSafe (pre : List Char) : Bool :=
  pre.tails.all (fun b => b.isEmpty || !((b.take 4).isPrefixOf CRLF4))

/-- Characters of the 200 status line. -/
def statusLineData : List Char := "HTTP/1.1 200 OK".data

/-- Characters of the Content-Type header name and separator. -/
def ctHeaderData : List Char := "Content-Type: ".data

/-- Characters of the fixed part of a 200 response that precedes the
mimetype. -/
def okHeadData : List Char := statusLineData ++ CRLF2 ++ ctHeaderData

/-! Concrete oracle instances used by witnesses and counterexamples. -/

/-- A document root under which nothing exists at all. -/
def emptyFS : FS :=
  ⟨"/srv/webroot", fun _ => "", fun _ => false, fun _ => [], fun _ => none⟩

/-- A document root holding `a_web_page.html` and `images/sample_1.png`. -/
def demoFS : FS :=
  ⟨"/srv/webroot", fun _ => "", fun _ => false, fun _ => [],
   fun s =>
     if s = "/srv/webroot/a_web_page.html" then some "<html><h1>North Carolina</h1></html>"
     else if s = "/srv/webroot/images/sample_1.png" then some "PNGBYTES"
     else none⟩

/-- A document root whose top directory lists two files. -/
def dirFS : FS :=
  ⟨"/srv/webroot", fun _ => "", fun s => s == "/srv/webroot/",
   fun _ => ["a.html", "b.png"], fun _ => none⟩

/-- A document root where running any script prints a fixed page. -/
def scriptFS : FS :=
  ⟨"/srv/webroot", fun _ => "<html>generated</html>", fun _ => false,
   fun _ => [], fun _ => none⟩

/-- A document root holding a readable file whose extension has no MIME
mapping. -/
def unkFS : FS :=
  ⟨"/srv/webroot", fun _ => "", fun _ => false, fun _ => [],
   fun s => if s = "/srv/webroot/data.zzz" then some "RAWDATA" else none⟩

/-- A document root whose top directory holds one entry whose name
contains a CRLF pair. -/
def crlfNameFS : FS :=
  ⟨"/srv/webroot", fun _ => "", fun s => s == "/srv/webroot/",
   fun _ => ["a\r\nb"], fun _ => none⟩

/-- A document root whose top directory is empty. -/
def emptyDirFS : FS :=
  ⟨"/srv/webroot", fun _ => "", fun s => s == "/srv/webroot/",
   fun _ => [], fun _ => none⟩

/-! Helper lemmas about the character-list utilities. -/

lemma hasCRLF_tail (a : Char) (l : List Char) (h : hasCRLF (a :: l) = false) :
    hasCRLF l = false := by
  cases l with
  | nil => rfl
  | cons b l' =>
    simp only [hasCRLF] at h
    exact (Bool.or_eq_false_iff.mp h).2

lemma hasCRLF_head (a b : Char) (l : List Char) (h : hasCRLF (a :: b :: l) = false) :
    (a == '\r' && b == '\n') = false := by
  simp only [hasCRLF] at h
  exact (Bool.or_eq_false_iff.mp h).1

lemma splitCRLF_of_noCRLF : ∀ l : List Char, hasCRLF l = false → splitCRLF l = [l] := by
  intro l
  induction l with
  | nil => intro _; rfl
  | cons a l ih =>
    intro h
    cases l with
    | nil => rfl
    | cons b l' =>
      simp only [splitCRLF, hasCRLF_head a b l' h, ih (hasCRLF_tail a _ h)]
      simp

lemma splitCRLF_crlf_cons (X : List Char) :
    splitCRLF ('\r' :: '\n' :: X) = [] :: splitCRLF X := by
  simp [splitCRLF]

lemma splitCRLF_append : ∀ (a m h : List Char) (t : List (List Char)),
    hasCRLF a = false → (a.getLast? = some '\r' → m.head? = some '\n' → False) →
    splitCRLF m = h :: t → splitCRLF (a ++ m) = (a ++ h) :: t := by
  intro a
  induction a with
  | nil =>
    intro m h t _ _ hm
    simpa using hm
  | cons c a ih =>
    intro m h t ha hb hm
    cases a with
    | nil =>
      cases m with
      | nil =>
        simp only [splitCRLF] at hm
        injection hm with h1 h2
        subst h1
        subst h2
        simp [splitCRLF]
      | cons d m' =>
        have hcd : (c == '\r' && d == '\n') = false := by
          cases hc : c == '\r' with
          | false => simp [hc]
          | true =>
            have hd : (d == '\n') = false := by
              cases hd : d == '\n' with
              | false => rfl
              | true =>
                exact (hb (by simp [eq_of_beq hc]) (by simp [eq_of_beq hd])).elim
            simp [hd]
        simp only [List.cons_append, List.nil_append, splitCRLF, hcd, hm]
        simp
    | cons c' a' =>
      have h1 : hasCRLF (c' :: a') = false := hasCRLF_tail c _ ha
      have hcc' : (c == '\r' && c' == '\n') = false := hasCRLF_head c c' a' ha
      have hb' : (c' :: a').getLast? = some '\r' → m.head? = some '\n' → False := by
        intro hg hh
        exact hb (by rw [List.getLast?_cons_cons]; exact hg) hh
      have hrec := ih m h t h1 hb' hm
      simp only [List.cons_append] at hrec ⊢
      simp only [splitCRLF, hcc', hrec]
      simp

lemma joinCRLF_data : ∀ ls : List String,
    (joinCRLF ls).data = joinCRLFL (ls.map String.data) := by
  intro ls
  induction ls with
  | nil => rfl
  | cons s rest ih =>
    cases rest with
    | nil => rfl
    | cons y r =>
      simp only [joinCRLF, List.map_cons, joinCRLFL, String.data_append]
      rw [← List.map_cons]
      simp [ih]

lemma splitCRLF_joinL : ∀ L : List (List Char), L ≠ [] →
    (∀ l ∈ L, hasCRLF l = false) → splitCRLF (joinCRLFL L) = L := by
  intro L
  induction L with
  | nil => intro h; exact absurd rfl h
  | cons x L ih =>
    intro _ hall
    cases L with
    | nil => exact splitCRLF_of_noCRLF x (hall x (by simp))
    | cons y L' =>
      have hx : hasCRLF x = false := hall x (by simp)
      have hrest : splitCRLF (joinCRLFL (y :: L')) = y :: L' :=
        ih (by simp) (fun l hl => hall l (List.mem_cons_of_mem _ hl))
      have hmid : splitCRLF ('\r' :: '\n' :: joinCRLFL (y :: L')) =
          [] :: (y :: L') := by
        rw [splitCRLF_crlf_cons, hrest]
      have hres := splitCRLF_append x ('\r' :: '\n' :: joinCRLFL (y :: L')) [] (y :: L')
        hx (by intro _ hh; simp at hh) hmid
      simp only [joinCRLFL]
      simpa using hres

lemma chunkSafe_cons (c : Char) (pre : List Char) (h : chunkSafe (c :: pre) = true) :
    chunkSafe pre = true ∧ (((c :: pre).take 4).isPrefixOf CRLF4) = false := by
  simp only [chunkSafe, List.tails_cons, List.all_cons] at h
  rcases Bool.and_eq_true_iff.mp h with ⟨h1, h2⟩
  refine ⟨h2, ?_⟩
  simpa using h1

lemma splitFirst_chunk : ∀ pre : List Char, chunkSafe pre = true →
    ∀ tail, splitFirst CRLF4 (pre ++ tail) =
      (splitFirst CRLF4 tail).map (fun q => (pre ++ q.1, q.2)) := by
  intro pre
  induction pre with
  | nil =>
    intro _ tail
    cases hsf : splitFirst CRLF4 tail with
    | none => simp [hsf]
    | some q => simp [hsf]
  | cons c pre ih =>
    intro hsafe tail
    obtain ⟨h1, h2⟩ := chunkSafe_cons c pre hsafe
    have hnp : CRLF4.isPrefixOf (c :: (pre ++ tail)) = false := by
      cases hb : CRLF4.isPrefixOf (c :: (pre ++ tail)) with
      | false => rfl
      | true =>
        exfalso
        have hpref : CRLF4 <+: (c :: pre) ++ tail := by
          rw [List.cons_append]
          exact List.isPrefixOf_iff_prefix.mp hb
        obtain ⟨r, hr⟩ := hpref
        have htake : ((c :: pre) ++ tail).take 4 = CRLF4 := by
          rw [← hr]
          exact List.take_left' rfl
        have hp2 : ((c :: pre).take 4) <+: (((c :: pre) ++ tail).take 4) :=
          List.IsPrefix.take (List.prefix_append _ _) 4
        rw [htake] at hp2
        rw [List.isPrefixOf_iff_prefix.mpr hp2] at h2
        exact Bool.true_eq_false.mp h2
    have heq : splitFirst CRLF4 ((c :: pre) ++ tail) =
        (splitFirst CRLF4 (pre ++ tail)).map (fun q => (c :: q.1, q.2)) := by
      simp only [List.cons_append, splitFirst, List.append_eq, hnp]
      simp
    rw [heq, ih h1 tail]
    cases hsf : splitFirst CRLF4 tail with
    | none => simp
    | some q => simp

lemma beq_flip_false {a b : Char} (h : (a == b) = false) : (b == a) = false := by
  cases hx : b == a with
  | false => rfl
  | true =>
    have hba := eq_of_beq hx
    subst hba
    simp at h

lemma splitFirst_mid : ∀ m : List Char, hasCRLF m = false →
    ∀ rest, splitFirst CRLF4 (m ++ CRLF4 ++ rest) = some (m, rest) := by
  intro m
  induction m with
  | nil =>
    intro _ rest
    have hpf : CRLF4.isPrefixOf ('\r' :: '\n' :: '\r' :: '\n' :: rest) = true := by
      simp [CRLF4, List.isPrefixOf]
    simp only [List.nil_append, CRLF4, List.cons_append, splitFirst, hpf]
    simp [CRLF4]
  | cons c m ih =>
    intro h rest
    have hm : hasCRLF m = false := hasCRLF_tail c m h
    have hnp : CRLF4.isPrefixOf (c :: (m ++ CRLF4 ++ rest)) = false := by
      cases hc : c == '\r' with
      | false =>
        have hcr := beq_flip_false hc
        simp [CRLF4, List.isPrefixOf, hcr]
      | true =>
        cases m with
        | nil =>
          have hrr : ('\n' == '\r') = false := by decide
          simp [CRLF4, List.isPrefixOf, eq_of_beq hc, hrr]
        | cons d m' =>
          have hd : (d == '\n') = false := by
            cases hd : d == '\n' with
            | false => rfl
            | true =>
              have hds := hasCRLF_head c d m' h
              rw [hc, hd] at hds
              exact (Bool.true_eq_false.mp hds).elim
          have hnd := beq_flip_false hd
          simp [CRLF4, List.isPrefixOf, hnd]
    have step : splitFirst CRLF4 ((c :: m) ++ CRLF4 ++ rest) =
        (splitFirst CRLF4 (m ++ CRLF4 ++ rest)).map (fun q => (c :: q.1, q.2)) := by
      simp only [List.cons_append, List.append_assoc] at hnp ⊢
      simp only [splitFirst, hnp]
      simp
    rw [step, ih hm rest]
    rfl

/-! Claim theorems. -/

/-- Claim C6: for a request whose first line splits into exactly three
space-separated tokens, `parse_request` fails with the
`NotImplementedError` condition exactly when the method token is not the
string `"GET"` (case-sensitively), and for method `"GET"` it succeeds
with the path token unchanged. -/
theorem c6_parse_method (req m p v : String)
    (h : firstLineTokens req = [m, p, v]) :
    (m ≠ "GET" → parse_request req = Except.error Err.notImplementedError)
    ∧ (m = "GET" → parse_request req = Except.ok p) := by
  constructor
  · intro hm
    simp [parse_request, h, hm]
  · intro hm
    simp [parse_request, h, hm]

/-- Claim C6, witness: a `POST` request is rejected with the 405
condition and a `GET` request yields its path. -/
theorem c6_parse_method_witness :
    parse_request "POST /file HTTP/1.1\r\n\r\n" = Except.error Err.notImplementedError
    ∧ parse_request "GET /file HTTP/1.1\r\n\r\n" = Except.ok "/file" :=
  ⟨(c6_parse_method "POST /file HTTP/1.1\r\n\r\n" "POST" "/file" "HTTP/1.1"
      (by decide)).1 (by decide),
   (c6_parse_method "GET /file HTTP/1.1\r\n\r\n" "GET" "/file" "HTTP/1.1"
      (by decide)).2 rfl⟩

/-- Claim C7: when the first line does not split into exactly three
tokens, parsing fails with the destructuring error (`ValueError`), which
is neither of the two conditions the dispatcher recovers, so `handle`
produces no response (the error propagates); conversely, with exactly
three tokens the destructuring itself never fails. -/
theorem c7_malformed_line (fs : FS) (req : String) :
    ((firstLineTokens req).length ≠ 3 →
      parse_request req = Except.error Err.valueError
      ∧ Err.valueError ≠ Err.notImplementedError
      ∧ Err.valueError ≠ Err.nameError
      ∧ handle fs req = Except.error Err.valueError)
    ∧ ((firstLineTokens req).length = 3 →
      parse_request req ≠ Except.error Err.valueError) := by
  have hh : parse_request req = Except.error Err.valueError →
      handle fs req = Except.error Err.valueError := by
    intro hp
    simp [handle, hp, Except.bind]
  constructor
  · intro hlen
    have hp : parse_request req = Except.error Err.valueError := by
      revert hlen
      cases hl : firstLineTokens req with
      | nil => intro _; simp [parse_request, hl]
      | cons a t1 =>
        cases t1 with
        | nil => intro _; simp [parse_request, hl]
        | cons b t2 =>
          cases t2 with
          | nil => intro _; simp [parse_request, hl]
          | cons cc t3 =>
            cases t3 with
            | nil => intro hlen; exact absurd rfl hlen
            | cons d t4 => intro _; simp [parse_request, hl]
    exact ⟨hp, by decide, by decide, hh hp⟩
  · intro hlen hp
    revert hlen
    cases hl : firstLineTokens req with
    | nil => intro hlen; simp at hlen
    | cons a t1 =>
      cases t1 with
      | nil => intro hlen; simp at hlen
      | cons b t2 =>
        cases t2 with
        | nil => intro hlen; simp at hlen
        | cons cc t3 =>
          cases t3 with
          | nil =>
            intro _
            simp only [parse_request, hl] at hp
            split at hp
            · exact Except.noConfusion hp (fun he => Err.noConfusion he)
            · exact Except.noConfusion hp
          | cons d t4 =>
            intro hlen
            simp at hlen

/-- Claim C7, witness: a one-token first line makes both the parser and
the dispatcher fail with the destructuring error, and no response value
is produced. -/
theorem c7_malformed_line_witness :
    parse_request "badline\r\n\r\n" = Except.error Err.valueError
    ∧ handle emptyFS "badline\r\n\r\n" = Except.error Err.valueError := by
  have hres := (c7_malformed_line emptyFS "badline\r\n\r\n").1 (by decide)
  exact ⟨hres.1, hres.2.2.2⟩

/-- Claim C10: the candidate filesystem location is the document root
joined with the request path minus its first character, unconditionally:
`"abc"` resolves against `"bc"`, and both `"/"` and `""` resolve to the
document root directory itself (root plus a trailing separator). -/
theorem c10_location_drop (root : String) (h1 : root.data.isEmpty = false)
    (h2 : ['/'].isSuffixOf root.data = false) :
    location root "abc" = root ++ "/bc"
    ∧ location root "/" = root ++ "/"
    ∧ location root "" = root ++ "/"
    ∧ ∀ path : String, ['/'].isPrefixOf (pyDropFirst path).data = false →
        location root path = root ++ "/" ++ pyDropFirst path := by
  have hgen : ∀ b : String, ['/'].isPrefixOf b.data = false →
      pyJoin root b = root ++ "/" ++ b := by
    intro b hb
    simp [pyJoin, hb, h1, h2]
  refine ⟨?_, ?_, ?_, ?_⟩
  · show pyJoin root (pyDropFirst "abc") = root ++ "/bc"
    rw [show pyDropFirst "abc" = "bc" by decide, hgen "bc" (by decide),
      String.append_assoc]
    rfl
  · show pyJoin root (pyDropFirst "/") = root ++ "/"
    rw [show pyDropFirst "/" = "" by decide, hgen "" (by decide), String.append_assoc]
    rfl
  · show pyJoin root (pyDropFirst "") = root ++ "/"
    rw [show pyDropFirst "" = "" by decide, hgen "" (by decide), String.append_assoc]
    rfl
  · intro path hp
    exact hgen (pyDropFirst path) hp

/-- Claim C10, witness: the location construction evaluated at a
concrete absolute document root. -/
theorem c10_location_drop_witness :
    location "/home/user/webroot" "abc" = "/home/user/webroot" ++ "/bc"
    ∧ location "/home/user/webroot" "/" = "/home/user/webroot" ++ "/"
    ∧ location "/home/user/webroot" "" = "/home/user/webroot" ++ "/"
    ∧ ∀ path : String, ['/'].isPrefixOf (pyDropFirst path).data = false →
        location "/home/user/webroot" path =
          "/home/user/webroot" ++ "/" ++ pyDropFirst path :=
  c10_location_drop "/home/user/webroot" (by decide) (by decide)

/-- Claim C2, counterexample: under a root where nothing exists at all,
the script-extension path `/missing.py` does not fail with the
`NameError` condition — the subprocess branch returns the interpreter's
(empty) captured stdout with mimetype `text/html`. -/
theorem c2_counterexample_script_path :
    (∀ s, emptyFS.isDir s = false)
    ∧ (∀ s, emptyFS.readFile s = none)
    ∧ response_path emptyFS "/missing.py" = Except.ok ("", "text/html")
    ∧ response_path emptyFS "/missing.py" ≠ Except.error Err.nameError := by
  have hv : response_path emptyFS "/missing.py" = Except.ok ("", "text/html") := rfl
  refine ⟨fun s => rfl, fun s => rfl, hv, ?_⟩
  rw [hv]
  intro hc
  exact Except.noConfusion hc

/-- Claim C2 as amended: for every path NOT ending in the script
extension whose resolved location is neither an existing directory nor a
readable file, `response_path` fails with the `NameError` (resource not
found) condition; script-extension paths never reach this branch. -/
theorem c2_amended_notfound (fs : FS) (path : String)
    (h1 : (".py".data).isSuffixOf path.data = false)
    (h2 : fs.isDir (location fs.home_dir path) = false)
    (h3 : fs.readFile (location fs.home_dir path) = none) :
    response_path fs path = Except.error Err.nameError := by
  simp [response_path, h1, h2, h3]

/-- Claim C2 as amended, witness: a missing non-script file yields the
not-found condition. -/
theorem c2_amended_notfound_witness :
    response_path emptyFS "/missing.txt" = Except.error Err.nameError :=
  c2_amended_notfound emptyFS "/missing.txt" rfl rfl rfl

/-- Claim C3, counterexample: a missing script file does NOT raise the
`ResourceNotFound` condition — `subprocess.run(["python", loc])` returns
normally with empty captured stdout when the script does not exist, so
`response_path` yields an OK result. -/
theorem c3_counterexample_missing_script :
    (∀ s, emptyFS.readFile s = none)
    ∧ (∀ s, emptyFS.isDir s = false)
    ∧ response_path emptyFS "/absent.py" = Except.ok ("", "text/html")
    ∧ response_path emptyFS "/absent.py" ≠ Except.error Err.nameError := by
  have hv : response_path emptyFS "/absent.py" = Except.ok ("", "text/html") := rfl
  refine ⟨fun s => rfl, fun s => rfl, hv, ?_⟩
  rw [hv]
  intro hc
  exact Except.noConfusion hc

/-- Claim C3 as amended: every path ending in the script extension is
resolved by running the subprocess and returning its captured standard
output (possibly empty) with mimetype fixed to `text/html`; the script
branch never fails with `ResourceNotFound` — neither for a non-zero exit
status nor for a missing script file. -/
theorem c3_amended_script_ok (fs : FS) (path : String)
    (h : (".py".data).isSuffixOf path.data = true) :
    response_path fs path =
      Except.ok (fs.pyStdout (location fs.home_dir path), "text/html") := by
  simp [response_path, h]

/-- Claim C3 as amended, witness: a script path returns the captured
stdout with `text/html`. -/
theorem c3_amended_script_ok_witness :
    response_path scriptFS "/make_time.py" =
      Except.ok (scriptFS.pyStdout (location scriptFS.home_dir "/make_time.py"),
        "text/html") :=
  c3_amended_script_ok scriptFS "/make_time.py" rfl

/-- Claim C4, counterexample: in the file branch, an extension with no
MIME mapping raises the `AttributeError` from `None.encode`, which is
not the `NameError` (not-found) condition the dispatcher recovers. -/
theorem c4_counterexample_attr_error :
    unkFS.readFile (location unkFS.home_dir "/data.zzz") = some "RAWDATA"
    ∧ guess_type "/data.zzz" = none
    ∧ response_path unkFS "/data.zzz" = Except.error Err.attributeError
    ∧ response_path unkFS "/data.zzz" ≠ Except.error Err.nameError := by
  have hv : response_path unkFS "/data.zzz" = Except.error Err.attributeError := rfl
  refine ⟨by decide, by decide, hv, ?_⟩
  rw [hv]
  intro hc
  simp at hc

/-- Claim C4 as amended: in the file-read branch, a path whose extension
has no known MIME mapping makes `response_path` fail with the
`AttributeError` condition (fatal to the connection handler), not with
the not-found condition. -/
theorem c4_amended_unmapped_ext (fs : FS) (path content : String)
    (h1 : (".py".data).isSuffixOf path.data = false)
    (h2 : fs.isDir (location fs.home_dir path) = false)
    (h3 : fs.readFile (location fs.home_dir path) = some content)
    (h4 : guess_type path = none) :
    response_path fs path = Except.error Err.attributeError := by
  simp [response_path, h1, h2, h3, h4]

/-- Claim C4 as amended, witness: an existing file with an unmappable
extension produces the attribute error. -/
theorem c4_amended_unmapped_ext_witness :
    response_path unkFS "/data.zzz" = Except.error Err.attributeError :=
  c4_amended_unmapped_ext unkFS "/data.zzz" "RAWDATA" rfl rfl (by decide) (by decide)

/-- Claim C9: a path naming an existing regular non-script file with a
known MIME mapping resolves to the file's exact contents unmodified,
paired with the MIME type determined from the path's extension by the
standard mapping table. -/
theorem c9_file_branch (fs : FS) (path content file_type : String)
    (h1 : (".py".data).isSuffixOf path.data = false)
    (h2 : fs.isDir (location fs.home_dir path) = false)
    (h3 : fs.readFile (location fs.home_dir path) = some content)
    (h4 : guess_type path = some file_type) :
    response_path fs path = Except.ok (content, file_type) := by
  simp [response_path, h1, h2, h3, h4]

/-- Claim C9, witness: an `.html` file resolves with `text/html` and a
`.png` file with `image/png`. -/
theorem c9_file_branch_witness :
    response_path demoFS "/a_web_page.html" =
      Except.ok ("<html><h1>North Carolina</h1></html>", "text/html")
    ∧ response_path demoFS "/images/sample_1.png" = Except.ok ("PNGBYTES", "image/png")
    ∧ guess_type "/a_web_page.html" = some "text/html"
    ∧ guess_type "/images/sample_1.png" = some "image/png" :=
  ⟨c9_file_branch demoFS "/a_web_page.html" "<html><h1>North Carolina</h1></html>"
      "text/html" rfl rfl (by decide) (by decide),
   c9_file_branch demoFS "/images/sample_1.png" "PNGBYTES" "image/png"
      rfl rfl (by decide) (by decide),
   by decide, by decide⟩

/-- Claim C8, counterexample: the body does not always recover the
entry-name set.  For a directory whose single entry name contains a CRLF
pair the body reads back as two different names, and for an empty
directory the empty body reads back as one empty name while there are no
entries. -/
theorem c8_counterexample_degenerate_listing :
    response_path crlfNameFS "/" = Except.ok ("a\r\nb", "text/plain")
    ∧ splitCRLF ("a\r\nb" : String).data = [("a" : String).data, ("b" : String).data]
    ∧ ("a\r\nb" : String).data ∉ [("a" : String).data, ("b" : String).data]
    ∧ response_path emptyDirFS "/" = Except.ok ("", "text/plain")
    ∧ splitCRLF ("" : String).data = [([] : List Char)]
    ∧ emptyDirFS.listDir (location emptyDirFS.home_dir "/") = [] :=
  ⟨rfl, by decide, by decide, rfl, by decide, rfl⟩

/-- Claim C8 as amended: a non-script path resolving to an existing
directory yields the CRLF-join of the directory's immediate entry names
with mimetype `text/plain`; when the listing is nonempty and no entry
name itself contains a CRLF pair, splitting the body back on CRLF
recovers exactly the entry list (hence the same set of names,
order-independently). -/
theorem c8_dir_branch (fs : FS) (path : String)
    (h1 : (".py".data).isSuffixOf path.data = false)
    (h2 : fs.isDir (location fs.home_dir path) = true) :
    response_path fs path =
      Except.ok (joinCRLF (fs.listDir (location fs.home_dir path)), "text/plain")
    ∧ (fs.listDir (location fs.home_dir path) ≠ [] →
        (∀ e ∈ fs.listDir (location fs.home_dir path), hasCRLF e.data = false) →
        splitCRLF (joinCRLF (fs.listDir (location fs.home_dir path))).data =
          (fs.listDir (location fs.home_dir path)).map String.data) := by
  constructor
  · simp [response_path, h1, h2]
  · intro h3 h4
    rw [joinCRLF_data]
    apply splitCRLF_joinL
    · simpa using h3
    · intro l hl
      obtain ⟨e, he, hrfl⟩ := List.mem_map.mp hl
      rw [← hrfl]
      exact h4 e he

/-- Claim C8 as amended, witness: the root directory listing
`["a.html", "b.png"]` is served as `a.html\r\nb.png` with `text/plain`,
and splits back into exactly the two names. -/
theorem c8_dir_branch_witness :
    response_path dirFS "/" =
      Except.ok (joinCRLF (dirFS.listDir (location dirFS.home_dir "/")), "text/plain")
    ∧ splitCRLF (joinCRLF (dirFS.listDir (location dirFS.home_dir "/"))).data =
      (dirFS.listDir (location dirFS.home_dir "/")).map String.data := by
  have hth := c8_dir_branch dirFS "/" rfl rfl
  exact ⟨hth.1, hth.2 (by decide) (by decide)⟩

/-- Claim C1: for a request whose first line has exactly three
space-separated tokens, the dispatcher returns the 405 response when the
parser fails with the unsupported-method condition, the 404 response when
the resolver fails with the not-found condition, the 200 response built
from the resolver's body and mimetype when both stages succeed, and no
response value other than these three shapes is ever produced. -/
theorem c1_dispatch (fs : FS) (req m p v : String)
    (h : firstLineTokens req = [m, p, v]) :
    (parse_request req = Except.error Err.notImplementedError →
      handle fs req = Except.ok response_method_not_allowed)
    ∧ (∀ pth, parse_request req = Except.ok pth →
        response_path fs pth = Except.error Err.nameError →
        handle fs req = Except.ok response_not_found)
    ∧ (∀ pth b mt, parse_request req = Except.ok pth →
        response_path fs pth = Except.ok (b, mt) →
        handle fs req = Except.ok (response_ok b mt))
    ∧ (∀ r, handle fs req = Except.ok r →
        r = response_method_not_allowed ∨ r = response_not_found
        ∨ ∃ b mt, r = response_ok b mt) := by
  refine ⟨?_, ?_, ?_, ?_⟩
  · intro hp
    simp [handle, hp, Except.bind]
  · intro pth hp hr
    simp [handle, hp, hr, Except.bind, Except.map]
  · intro pth b mt hp hr
    simp [handle, hp, hr, Except.bind, Except.map]
  · intro r hr
    cases hp : parse_request req with
    | error e =>
      cases e with
      | notImplementedError =>
        have hv : handle fs req = Except.ok response_method_not_allowed := by
          simp [handle, hp, Except.bind]
        rw [hv] at hr
        injection hr with hy
        exact Or.inl hy.symm
      | nameError =>
        have hv : handle fs req = Except.ok response_not_found := by
          simp [handle, hp, Except.bind]
        rw [hv] at hr
        injection hr with hy
        exact Or.inr (Or.inl hy.symm)
      | valueError =>
        have hv : handle fs req = Except.error Err.valueError := by
          simp [handle, hp, Except.bind]
        rw [hv] at hr
        exact Except.noConfusion hr
      | attributeError =>
        have hv : handle fs req = Except.error Err.attributeError := by
          simp [handle, hp, Except.bind]
        rw [hv] at hr
        exact Except.noConfusion hr
    | ok pth =>
      cases hq : response_path fs pth with
      | ok cm =>
        have hv : handle fs req = Except.ok (response_ok cm.1 cm.2) := by
          simp [handle, hp, hq, Except.bind, Except.map]
        rw [hv] at hr
        injection hr with hy
        exact Or.inr (Or.inr ⟨cm.1, cm.2, hy.symm⟩)
      | error e =>
        cases e with
        | notImplementedError =>
          have hv : handle fs req = Except.ok response_method_not_allowed := by
            simp [handle, hp, hq, Except.bind, Except.map]
          rw [hv] at hr
          injection hr with hy
          exact Or.inl hy.symm
        | nameError =>
          have hv : handle fs req = Except.ok response_not_found := by
            simp [handle, hp, hq, Except.bind, Except.map]
          rw [hv] at hr
          injection hr with hy
          exact Or.inr (Or.inl hy.symm)
        | valueError =>
          have hv : handle fs req = Except.error Err.valueError := by
            simp [handle, hp, hq, Except.bind, Except.map]
          rw [hv] at hr
          exact Except.noConfusion hr
        | attributeError =>
          have hv : handle fs req = Except.error Err.attributeError := by
            simp [handle, hp, hq, Except.bind, Except.map]
          rw [hv] at hr
          exact Except.noConfusion hr

/-- Claim C1, witness: the dispatch trichotomy instantiated at a
well-formed `GET` request against a concrete root. -/
theorem c1_dispatch_witness :
    (parse_request "GET /a_web_page.html HTTP/1.1\r\n\r\n" =
        Except.error Err.notImplementedError →
      handle demoFS "GET /a_web_page.html HTTP/1.1\r\n\r\n" =
        Except.ok response_method_not_allowed)
    ∧ (∀ pth, parse_request "GET /a_web_page.html HTTP/1.1\r\n\r\n" = Except.ok pth →
        response_path demoFS pth = Except.error Err.nameError →
        handle demoFS "GET /a_web_page.html HTTP/1.1\r\n\r\n" =
          Except.ok response_not_found)
    ∧ (∀ pth b mt, parse_request "GET /a_web_page.html HTTP/1.1\r\n\r\n" = Except.ok pth →
        response_path demoFS pth = Except.ok (b, mt) →
        handle demoFS "GET /a_web_page.html HTTP/1.1\r\n\r\n" =
          Except.ok (response_ok b mt))
    ∧ (∀ r, handle demoFS "GET /a_web_page.html HTTP/1.1\r\n\r\n" = Except.ok r →
        r = response_method_not_allowed ∨ r = response_not_found
        ∨ ∃ b mt, r = response_ok b mt) :=
  c1_dispatch demoFS "GET /a_web_page.html HTTP/1.1\r\n\r\n"
    "GET" "/a_web_page.html" "HTTP/1.1" (by decide)

/-- Claim C5, counterexample: for a mimetype containing CRLF pairs the
round-trip fails — splitting the output of
`response_ok "hello" "x\r\n\r\ny"` on the first `\r\n\r\n` recovers a
body different from the original body. -/
theorem c5_counterexample_crlf_mimetype :
    splitFirst CRLF4 (response_ok "hello" "x\r\n\r\ny").data =
      some (("HTTP/1.1 200 OK\r\nContent-Type: x").data, ("y\r\n\r\nhello").data)
    ∧ ("y\r\n\r\nhello" : String) ≠ "hello" :=
  ⟨by decide, by decide⟩

/-- Claim C5 as amended: for every body and every CRLF-free mimetype,
`response_ok` produces exactly the status line, one Content-Type header,
a blank line and the body verbatim, joined by CRLF with nothing appended,
and splitting the output back on the first `\r\n\r\n` recovers the two
header lines and the exact unmodified body. -/
theorem c5_amended_roundtrip (body mimetype : String)
    (h : hasCRLF mimetype.data = false) :
    (response_ok body mimetype).data =
      okHeadData ++ mimetype.data ++ CRLF4 ++ body.data
    ∧ splitFirst CRLF4 (response_ok body mimetype).data =
        some (okHeadData ++ mimetype.data, body.data)
    ∧ splitCRLF (okHeadData ++ mimetype.data) =
        [statusLineData, ctHeaderData ++ mimetype.data] := by
  have hcrlf : ("\r\n" : String).data = ['\r', '\n'] := rfl
  have hnil : ("" : String).data = ([] : List Char) := rfl
  have hdata : (response_ok body mimetype).data =
      okHeadData ++ mimetype.data ++ CRLF4 ++ body.data := by
    simp only [response_ok, joinCRLF, String.data_append, hcrlf, hnil, okHeadData,
      statusLineData, ctHeaderData, CRLF2, CRLF4]
    simp [List.append_assoc]
  refine ⟨hdata, ?_, ?_⟩
  · rw [hdata]
    have hsafe : chunkSafe okHeadData = true := by decide
    have hstep := splitFirst_chunk okHeadData hsafe (mimetype.data ++ CRLF4 ++ body.data)
    have hmid := splitFirst_mid mimetype.data h body.data
    have hassoc : okHeadData ++ mimetype.data ++ CRLF4 ++ body.data =
        okHeadData ++ (mimetype.data ++ CRLF4 ++ body.data) := by
      simp [List.append_assoc]
    rw [hassoc, hstep, hmid]
    rfl
  · have hct : splitCRLF (ctHeaderData ++ mimetype.data) =
        [ctHeaderData ++ mimetype.data] := by
      have hm := splitCRLF_of_noCRLF mimetype.data h
      have hres := splitCRLF_append ctHeaderData mimetype.data mimetype.data []
        (by decide)
        (by
          have hlast : ctHeaderData.getLast? = some ' ' := by decide
          intro hg _
          rw [hlast] at hg
          exact absurd (Option.some.inj hg) (by decide))
        hm
      simpa using hres
    have hmain := splitCRLF_append statusLineData
      ('\r' :: '\n' :: (ctHeaderData ++ mimetype.data)) []
      [ctHeaderData ++ mimetype.data]
      (by decide)
      (by intro _ hh; simp at hh)
      (by rw [splitCRLF_crlf_cons, hct])
    have hshape : okHeadData ++ mimetype.data =
        statusLineData ++ ('\r' :: '\n' :: (ctHeaderData ++ mimetype.data)) := by
      simp [okHeadData, CRLF2, List.append_assoc]
    rw [hshape]
    simpa using hmain

/-- Claim C5 as amended, witness: the round-trip evaluated at body
`"hello"` and mimetype `"text/plain"`. -/
theorem c5_amended_roundtrip_witness :
    hasCRLF ("text/plain" : String).data = false
    ∧ ((response_ok "hello" "text/plain").data =
        okHeadData ++ ("text/plain" : String).data ++ CRLF4 ++ ("hello" : String).data
      ∧ splitFirst CRLF4 (response_ok "hello" "text/plain").data =
          some (okHeadData ++ ("text/plain" : String).data, ("hello" : String).data)
      ∧ splitCRLF (okHeadData ++ ("text/plain" : String).data) =
          [statusLineData, ctHeaderData ++ ("text/plain" : String).data]) :=
  ⟨by decide, c5_amended_roundtrip "hello" "text/plain" (by decide)⟩

end HttpSrv
